import Mathlib

/-!
Verification of the EcoData Monitor KPI / ETL / alerting core
(`app/domain/kpis.py`, `app/domain/alerts.py`, `pipeline_etl.py`).

Shallow embedding conventions:
* pandas DataFrames become Lean structures holding a `List` of typed rows,
  plus Boolean flags for optionally-present columns where the code probes
  `col in df.columns`;
* float columns that may hold NaN (after `pd.to_numeric(..., errors="coerce")`)
  become `Option ℚ`, with `none` playing the role of NaN: every pandas
  comparison against NaN is false, and pandas sums skip NaN;
* timestamps are rational numbers of seconds since the epoch; a calendar
  day is the floor of `t / 86400`, and 1970-01-01 (day 0) was a Thursday,
  so Python's `date.weekday()` (Monday = 0) is `(day + 3) mod 7`;
* `datetime.now()` is passed in explicitly as a `now` parameter.
-/

namespace EcoData

/-- Python `int()` truncates toward zero. -/
def intTrunc (q : ℚ) : ℤ := if q < 0 then ⌈q⌉ else ⌊q⌋

/-- Calendar day of a timestamp given in seconds since the epoch. -/
def dateOf (t : ℚ) : ℤ := ⌊t / 86400⌋

/-- Python `date.weekday()`: Monday = 0 … Sunday = 6; day 0 was a Thursday. -/
def weekdayOf (d : ℤ) : ℤ := (d + 3) % 7

/-- Midnight (00:00:00) of a calendar day, in seconds since the epoch. -/
def midnight (d : ℤ) : ℚ := (d : ℚ) * 86400

/-- Sum of a float column, skipping NaN entries, as pandas `.sum()` does. -/
def optSum (l : List (Option ℚ)) : ℚ := (l.filterMap id).sum

-- =============================================
-- `compute_energy_cost` (kpis.py, section 4)
-- =============================================

/-- One row of a production frame as consumed by `compute_energy_cost`:
`pecas_produzidas` and (when the column exists) `consumo_kwh`, both possibly
NaN after numeric coercion. -/
structure EnergyRow where
  pecas : Option ℚ
  consumo : Option ℚ
deriving DecidableEq, Repr

/-- A production frame for `compute_energy_cost`; `hasConsumo` models the
`"consumo_kwh" in prod_df.columns` probe. -/
structure EnergyFrame where
  hasConsumo : Bool
  rows : List EnergyRow
deriving DecidableEq, Repr

/-- `CUSTO_KWH = 0.75` (kpis.py line 181). -/
def CUSTO_KWH : ℚ := 3 / 4

/-- `compute_energy_cost(prod_df, preco_venda, custo_por_tijolo)`
(kpis.py lines 174-186).  Returns `(custo_por_peca, custo_total_energia)`.
The `preco_venda` and `custo_por_tijolo` arguments are accepted, as in the
source, and never used. -/
def compute_energy_cost (prod_df : EnergyFrame) (preco_venda custo_por_tijolo : ℚ) :
    ℚ × ℚ :=
  if prod_df.rows.isEmpty || !prod_df.hasConsumo then (0, 0)
  else
    let total_kwh := optSum (prod_df.rows.map (·.consumo))
    let custo_total_energia := total_kwh * CUSTO_KWH
    let total_pecas := optSum (prod_df.rows.map (·.pecas))
    let custo_por_peca := if total_pecas > 0 then custo_total_energia / total_pecas else 0
    (custo_por_peca, custo_total_energia)

-- =============================================
-- `compute_refugo_by_turno` (kpis.py, section 7)
-- =============================================

/-- numpy/pandas `.round(1)` rounds half to even on the first decimal. -/
def roundHalfEven (q : ℚ) : ℤ :=
  let f := ⌊q⌋
  let r := q - f
  if r < 1 / 2 then f
  else if 1 / 2 < r then f + 1
  else if Even f then f else f + 1

/-- Round to one decimal place, half to even. -/
def round1 (q : ℚ) : ℚ := (roundHalfEven (q * 10) : ℚ) / 10

/-- One row of a production frame as consumed by `compute_refugo_by_turno`:
the `turno` label and the two piece counts after numeric coercion (NaN as
`none`; the source applies `fillna(0)` right after coercion). -/
structure TurnoRow where
  turno : String
  pecas : Option ℚ
  refug : Option ℚ
deriving DecidableEq, Repr

/-- `pecas_produzidas` after `pd.to_numeric(...).fillna(0)`. -/
def TurnoRow.p (r : TurnoRow) : ℚ := r.pecas.getD 0

/-- `pecas_refugadas` after `pd.to_numeric(...).fillna(0)`. -/
def TurnoRow.r (r : TurnoRow) : ℚ := r.refug.getD 0

/-- One output row of `compute_refugo_by_turno`. -/
structure RefugoRow where
  turno : String
  pecas : ℚ
  refug : ℚ
  pct_refugo : ℚ
deriving DecidableEq, Repr

/-- Descending order on `pct_refugo` (the `ascending=False` sort key). -/
def pctGE (a b : RefugoRow) : Prop := b.pct_refugo ≤ a.pct_refugo

instance : DecidableRel pctGE := fun a b => inferInstanceAs (Decidable (_ ≤ _))

instance : IsTotal RefugoRow pctGE :=
  ⟨fun a b => (le_total b.pct_refugo a.pct_refugo).imp id id⟩

instance : IsTrans RefugoRow pctGE :=
  ⟨fun _ _ _ hab hbc => le_trans hbc hab⟩

/-- The distinct `turno` labels of a frame (one output group per label; the
relative order of groups is irrelevant because the result is re-sorted by
`pct_refugo`). -/
def turnoKeys (l : List TurnoRow) : List String := (l.map (·.turno)).dedup

/-- Sum of `pecas_produzidas` over the rows of one shift. -/
def turnoPecas (l : List TurnoRow) (t : String) : ℚ :=
  ((l.filter (·.turno = t)).map (·.p)).sum

/-- Sum of `pecas_refugadas` over the rows of one shift. -/
def turnoRefug (l : List TurnoRow) (t : String) : ℚ :=
  ((l.filter (·.turno = t)).map (·.r)).sum

/-- The aggregated row of one shift:
`pct_refugo = (refug / prod.replace(0, nan) * 100).fillna(0).round(1)`. -/
def mkRefugoRow (l : List TurnoRow) (t : String) : RefugoRow :=
  let sp := turnoPecas l t
  let sr := turnoRefug l t
  ⟨t, sp, sr, if sp = 0 then 0 else round1 (sr / sp * 100)⟩

/-- `compute_refugo_by_turno(prod_df)` (kpis.py lines 273-287): group by
`turno`, sum the two piece counts, derive `pct_refugo`, sort descending by
`pct_refugo`. -/
def compute_refugo_by_turno (l : List TurnoRow) : List RefugoRow :=
  if l.isEmpty then []
  else List.insertionSort pctGE ((turnoKeys l).map (mkRefugoRow l))

-- =============================================
-- `calculate_mttr_mtbf` (kpis.py, section 8)
-- =============================================

/-- Minimum of a list of rationals (`Series.min()` over the non-NaN values). -/
def listMin? : List ℚ → Option ℚ
  | [] => none
  | x :: xs => some (xs.foldl min x)

/-- Maximum of a list of rationals (`Series.max()` over the non-NaN values). -/
def listMax? : List ℚ → Option ℚ
  | [] => none
  | x :: xs => some (xs.foldl max x)

/-- One row of an event frame as consumed by `calculate_mttr_mtbf`:
timestamp (NaT as `none`) and `duracao_min` (NaN as `none`; the source
coerces and applies `fillna(0.0)`). -/
structure EventRow where
  timestamp : Option ℚ
  duracao : Option ℚ
deriving DecidableEq, Repr

/-- `duracao_min` after `pd.to_numeric(...).fillna(0.0)`. -/
def EventRow.dur (r : EventRow) : ℚ := r.duracao.getD 0

/-- The failure events: rows with `duracao_min > 0`. -/
def falhas (l : List EventRow) : List EventRow := l.filter (fun r => 0 < r.dur)

/-- The non-NaT timestamps of an event frame. -/
def evtTimes (l : List EventRow) : List ℚ := l.filterMap (·.timestamp)

/-- `calculate_mttr_mtbf(evt_df)` (kpis.py lines 292-324).  Durations are in
minutes; timestamps in seconds, hence the `/ 60` for the span. -/
def calculate_mttr_mtbf (l : List EventRow) : ℚ × ℚ :=
  if l.isEmpty then (0, 0)
  else
    let f := falhas l
    if f.isEmpty then (0, 0)
    else
      let total_down := (f.map (·.dur)).sum
      let n : ℚ := f.length
      let mttr := total_down / n
      match listMin? (evtTimes l), listMax? (evtTimes l) with
      | some mn, some mx =>
          if mn = mx then (mttr, 0)
          else
            let tempo_total := (mx - mn) / 60
            let tempo_op := max 0 (tempo_total - total_down)
            (mttr, tempo_op / n)
      | _, _ => (mttr, 0)

-- =============================================
-- `pareto_paradas` (kpis.py, section 9)
-- =============================================

/-- One event row as consumed by `pareto_paradas`: the event label (the
`evento`/`descricao` column), the numeric severity code, and `duracao_min`
(NaN as `none`). -/
structure ParetoEvt where
  evento : String
  sev : ℤ
  duracao : Option ℚ
deriving DecidableEq, Repr

/-- An event frame for `pareto_paradas`; `hasDur` models the
`"duracao_min" in df.columns` probe (when absent the source creates the
column filled with 0). -/
structure ParetoFrame where
  hasDur : Bool
  rows : List ParetoEvt
deriving DecidableEq, Repr

/-- The effective duration of a row: the column value, or 0 when the frame
has no `duracao_min` column. -/
def ParetoFrame.dur (f : ParetoFrame) (r : ParetoEvt) : Option ℚ :=
  if f.hasDur then r.duracao else some 0

/-- One output group of `pareto_paradas`. -/
structure ParetoRow where
  evento : String
  count : ℕ
  tempo_total_min : ℚ
deriving DecidableEq, Repr

/-- Descending order on occurrence count (the `by="count", ascending=False`
sort key). -/
def countGE (a b : ParetoRow) : Prop := b.count ≤ a.count

instance : DecidableRel countGE := fun a b => inferInstanceAs (Decidable (_ ≤ _))

instance : IsTotal ParetoRow countGE :=
  ⟨fun a b => (le_total b.count a.count).imp id id⟩

instance : IsTrans ParetoRow countGE :=
  ⟨fun _ _ _ hab hbc => le_trans hbc hab⟩

/-- The distinct event labels of a frame (group order is irrelevant: the
result is re-sorted by count). -/
def eventoKeys (l : List ParetoEvt) : List String := (l.map (·.evento)).dedup

/-- The aggregated group of one event label: occurrence count (`"size"`) and
summed duration minutes. -/
def mkParetoRow (f : ParetoFrame) (e : String) : ParetoRow :=
  let rows := f.rows.filter (·.evento = e)
  ⟨e, rows.length, optSum (rows.map f.dur)⟩

/-- `pareto_paradas(df)` (kpis.py lines 329-357): group all events by event
label, aggregate count and summed duration, sort descending by count.  No
severity filter is applied. -/
def pareto_paradas (f : ParetoFrame) : List ParetoRow :=
  List.insertionSort countGE ((eventoKeys f.rows).map (mkParetoRow f))

-- =============================================
-- `selecionar_periodo_inteligente` (kpis.py, section 1)
-- =============================================

/-- One row of a production frame as consumed by
`selecionar_periodo_inteligente`: a parsed timestamp (seconds since epoch)
and `pecas_produzidas`. -/
structure ProdRow where
  timestamp : ℚ
  pecas : ℚ
deriving DecidableEq, Repr

/-- The `modo` argument (any string other than "24h"/"ontem" takes the
`auto` path in the source). -/
inductive Modo
  | auto
  | h24
  | ontem
deriving DecidableEq, Repr

/-- The `descricao` component of the returned triple.  The source builds
strings such as `"Hoje (dd/mm)"`; the constructors carry the day that is
formatted into them. -/
inductive Desc
  | semDados
  | ultimas24h
  | ontemDia (d : ℤ)
  | historicoTotal
  | fechamentoAnterior (d : ℤ)
  | historicoFallback
  | hoje (d : ℤ)
deriving DecidableEq, Repr

/-- `prod_valida`: the rows with positive `pecas_produzidas`. -/
def posRows (df : List ProdRow) : List ProdRow := df.filter (fun r => 0 < r.pecas)

/-- Sum of `pecas_produzidas` over a list of rows. -/
def sumPecas (l : List ProdRow) : ℚ := (l.map (·.pecas)).sum

/-- `df["timestamp"].min()`. -/
def tsMinP (df : List ProdRow) : Option ℚ := listMin? (df.map (·.timestamp))

/-- `df["timestamp"].max()`. -/
def tsMaxP (df : List ProdRow) : Option ℚ := listMax? (df.map (·.timestamp))

/-- `df["timestamp"].max()` as a total function on frames known nonempty. -/
def tsMaxD : List ProdRow → ℚ
  | [] => 0
  | r :: rs => rs.foldl (fun m x => max m x.timestamp) r.timestamp

/-- The rows of one calendar day (`df["timestamp"].dt.date == dia`). -/
def diaRows (df : List ProdRow) (d : ℤ) : List ProdRow :=
  df.filter (fun r => dateOf r.timestamp = d)

/-- `ultimo_dia`: the date of the latest timestamp among positive rows. -/
def ultimoDiaOf (df : List ProdRow) : ℤ := dateOf (tsMaxD (posRows df))

/-- Whether a calendar day has positive production in the full frame
(the loop test `not prod_ref.empty and prod_ref["pecas_produzidas"].sum() > 0`;
a nonempty day with sum 0 fails it just as an empty day does). -/
def dayPos (df : List ProdRow) (d : ℤ) : Bool :=
  decide (0 < sumPecas (diaRows df d))

/-- The backward-search loop body: starting at `diaRef` with `fuel`
remaining attempts, find the first day with positive production. -/
def buscaGo (df : List ProdRow) : ℤ → ℕ → Option ℤ
  | _, 0 => none
  | diaRef, fuel + 1 =>
      if dayPos df diaRef then some diaRef else buscaGo df (diaRef - 1) fuel

/-- The `while tentativas < 7` search of kpis.py lines 74-83: try days
`ultimoDia - 1` down to `ultimoDia - 7`. -/
def buscaDiaAnterior (df : List ProdRow) (ultimoDia : ℤ) : Option ℤ :=
  buscaGo df (ultimoDia - 1) 7

/-- `selecionar_periodo_inteligente(producao_df, modo)` (kpis.py lines
30-98); `now` is `pd.Timestamp.now()`, read by the source on every call and
used only by the "ontem" mode.  Returns `(inicio, fim, descricao)`. -/
def selecionar_periodo_inteligente (now : ℚ) (df : List ProdRow) (modo : Modo) :
    Option ℚ × Option ℚ × Desc :=
  if df.isEmpty then (none, none, .semDados)
  else
    match modo with
    | .h24 => ((tsMaxP df).map (fun f => f - 86400), tsMaxP df, .ultimas24h)
    | .ontem =>
        let ont := dateOf (now - 86400)
        (some (midnight ont), some (midnight ont + 86400 - 1), .ontemDia ont)
    | .auto =>
        if (posRows df).isEmpty then (tsMinP df, tsMaxP df, .historicoTotal)
        else
          let ultimoDia := ultimoDiaOf df
          let totalUltimo : ℤ := intTrunc (sumPecas (diaRows (posRows df) ultimoDia))
          if totalUltimo < 500 ∨ weekdayOf ultimoDia = 6 then
            match buscaDiaAnterior df ultimoDia with
            | some d =>
                (some (midnight d), some (midnight d + 86400 - 1),
                 .fechamentoAnterior d)
            | none => (tsMinP df, tsMaxP df, .historicoFallback)
          else
            (some (midnight ultimoDia), some (midnight ultimoDia + 86400 - 1),
             .hoje ultimoDia)

/-- Maximum of a list of integers (claim-side: "the latest calendar day"). -/
def listMaxZ? : List ℤ → Option ℤ
  | [] => none
  | x :: xs => some (xs.foldl max x)

/-- The calendar days of a frame's rows. -/
def datesOf (l : List ProdRow) : List ℤ := l.map (fun r => dateOf r.timestamp)

-- =============================================
-- ETL pipeline (pipeline_etl.py): `DataQualityConfig`,
-- `detect_outliers_iqr`, `process_telemetria`, `process_producao`
-- =============================================

/-- `DataQualityConfig.PRESSAO_MIN` (pipeline_etl.py line 65). -/
def PRESSAO_MIN : ℚ := 8
/-- `DataQualityConfig.PRESSAO_MAX`. -/
def PRESSAO_MAX : ℚ := 18
/-- `DataQualityConfig.UMIDADE_MIN`. -/
def UMIDADE_MIN : ℚ := 8
/-- `DataQualityConfig.UMIDADE_MAX`. -/
def UMIDADE_MAX : ℚ := 18
/-- `DataQualityConfig.TEMP_MIN`. -/
def TEMP_MIN : ℚ := 40
/-- `DataQualityConfig.TEMP_MAX`. -/
def TEMP_MAX : ℚ := 80
/-- `DataQualityConfig.IQR_MULTIPLIER` (default used by
`detect_outliers_iqr`). -/
def IQR_MULTIPLIER : ℚ := 3 / 2

/-- Linear interpolation of a sorted sample at fractional position `h`:
`s[⌊h⌋] + (h − ⌊h⌋)·(s[⌊h⌋+1] − s[⌊h⌋])` (the upper index falls back to
the lower value at the end of the list). -/
def interpAt (s : List ℚ) (h : ℚ) : ℚ :=
  s.getD (⌊h⌋).toNat 0 +
    (h - ⌊h⌋) *
      (s.getD ((⌊h⌋).toNat + 1) (s.getD (⌊h⌋).toNat 0) - s.getD (⌊h⌋).toNat 0)

/-- `Series.quantile(q)` on an already sorted list: pandas' default linear
interpolation at position `h = q·(n−1)`; NaN (`none`) on an empty series. -/
def quantileSorted (s : List ℚ) (q : ℚ) : Option ℚ :=
  if s.isEmpty then none
  else some (interpAt s (q * ((s.length : ℚ) - 1)))

/-- `Series.quantile(q)` (NaN entries are assumed already removed). -/
def quantile (l : List ℚ) (q : ℚ) : Option ℚ :=
  quantileSorted (List.insertionSort (· ≤ ·) l) q

/-- `detect_outliers_iqr(series, multiplier)` (pipeline_etl.py lines
86-93), as the count of flagged entries (`outliers.sum()`): values outside
`[Q1 − m·IQR, Q3 + m·IQR]`. -/
def iqrOutlierCount (l : List ℚ) (mult : ℚ) : ℕ :=
  match quantile l (1 / 4), quantile l (3 / 4) with
  | some q1, some q3 =>
      let iqr := q3 - q1
      let lower := q1 - mult * iqr
      let upper := q3 + mult * iqr
      l.countP (fun x => decide (x < lower) || decide (upper < x))
  | _, _ => 0

/-- One telemetry row after the name/type normalisation steps 1-4 of
`process_telemetria` (string cleaning such as `clean_temp` happens there;
this embedding starts from the resulting numeric columns, NaN as `none`). -/
structure TeleRow where
  timestamp : Option ℚ
  pressao : Option ℚ
  umidade : Option ℚ
  temp : Option ℚ
deriving DecidableEq, Repr

/-- A telemetry frame; the `has*` flags model the
`"col" in tele.columns` probes for the three configured columns. -/
structure TeleFrame where
  hasPressao : Bool
  hasUmidade : Bool
  hasTemp : Bool
  rows : List TeleRow
deriving DecidableEq, Repr

/-- `lo <= value <= hi` where a NaN value compares false (so NaN rows are
dropped by the mask, as in pandas). -/
def inRangeOpt (v : Option ℚ) (lo hi : ℚ) : Bool :=
  match v with
  | none => false
  | some x => decide (lo ≤ x) && decide (x ≤ hi)

/-- The `mask_valid` of pipeline_etl.py lines 260-278: the conjunction of
the range checks of the columns that are present. -/
def maskValid (f : TeleFrame) (r : TeleRow) : Bool :=
  (!f.hasPressao || inRangeOpt r.pressao PRESSAO_MIN PRESSAO_MAX) &&
  (!f.hasUmidade || inRangeOpt r.umidade UMIDADE_MIN UMIDADE_MAX) &&
  (!f.hasTemp || inRangeOpt r.temp TEMP_MIN TEMP_MAX)

/-- `Series.clip(lower, upper)`: a NaN (`none`) threshold is ignored. -/
def clipOpt (lo hi : Option ℚ) (v : ℚ) : ℚ :=
  let v1 := match lo with | none => v | some a => max v a
  match hi with | none => v1 | some b => min v1 b

/-- The non-NaN values of one column. -/
def colValues (rows : List TeleRow) (get : TeleRow → Option ℚ) : List ℚ :=
  rows.filterMap get

/-- Winsorization step 6 of `process_telemetria` for `pressao_mpa`: when
IQR outliers are present, clip the column to its 1st/99th percentile. -/
def winsorizePressao (rows : List TeleRow) : List TeleRow :=
  let vals := colValues rows (·.pressao)
  if 0 < iqrOutlierCount vals IQR_MULTIPLIER then
    let lo := quantile vals (1 / 100)
    let hi := quantile vals (99 / 100)
    rows.map (fun r => { r with pressao := r.pressao.map (clipOpt lo hi) })
  else rows

/-- Winsorization step 6 for `umidade_pct`. -/
def winsorizeUmidade (rows : List TeleRow) : List TeleRow :=
  let vals := colValues rows (·.umidade)
  if 0 < iqrOutlierCount vals IQR_MULTIPLIER then
    let lo := quantile vals (1 / 100)
    let hi := quantile vals (99 / 100)
    rows.map (fun r => { r with umidade := r.umidade.map (clipOpt lo hi) })
  else rows

/-- Winsorization step 6 for `temp_matriz_c`. -/
def winsorizeTemp (rows : List TeleRow) : List TeleRow :=
  let vals := colValues rows (·.temp)
  if 0 < iqrOutlierCount vals IQR_MULTIPLIER then
    let lo := quantile vals (1 / 100)
    let hi := quantile vals (99 / 100)
    rows.map (fun r => { r with temp := r.temp.map (clipOpt lo hi) })
  else rows

/-- Steps 3 and 5 of `process_telemetria`: drop rows with unparsable
timestamps (`dropna(subset=["timestamp"])`), then keep the rows satisfying
`mask_valid`. -/
def silverStage (f : TeleFrame) : List TeleRow :=
  (f.rows.filter (fun r => r.timestamp.isSome)).filter (maskValid f)

/-- Step 6 of `process_telemetria`: winsorize each of the three configured
columns that is present (the source iterates the columns in this order). -/
def winsorizeAll (f : TeleFrame) (rows : List TeleRow) : List TeleRow :=
  let r3 := if f.hasPressao then winsorizePressao rows else rows
  let r4 := if f.hasUmidade then winsorizeUmidade r3 else r3
  if f.hasTemp then winsorizeTemp r4 else r4

/-- `process_telemetria(tele_raw)` (pipeline_etl.py lines 194-311) from
step 3 on: drop rows with unparsable timestamps, filter by the physical
range mask, record `removed_invalid = (~mask_valid).sum()`, then winsorize
each present column.  Steps 1-2 and `clean_temp` are string normalisation
producing the typed frame this definition starts from; step 7 only adds a
derived partition column.  Returns (silver rows, removed_invalid). -/
def process_telemetria (f : TeleFrame) : List TeleRow × ℕ :=
  (winsorizeAll f (silverStage f),
   (f.rows.filter (fun r => r.timestamp.isSome)).countP
     (fun r => !(maskValid f r)))

/-- The per-row range property C6 claims of the retained silver rows. -/
def RowOk (f : TeleFrame) (r : TeleRow) : Prop :=
  (f.hasPressao = true →
    ∃ x, r.pressao = some x ∧ PRESSAO_MIN ≤ x ∧ x ≤ PRESSAO_MAX) ∧
  (f.hasUmidade = true →
    ∃ x, r.umidade = some x ∧ UMIDADE_MIN ≤ x ∧ x ≤ UMIDADE_MAX) ∧
  (f.hasTemp = true →
    ∃ x, r.temp = some x ∧ TEMP_MIN ≤ x ∧ x ≤ TEMP_MAX)

/-- One production row after name/type normalisation (NaN as `none`). -/
structure ProdRawRow where
  timestamp : Option ℚ
  pecas : Option ℚ
  refug : Option ℚ
deriving DecidableEq, Repr

/-- `series >= 0` rowwise; NaN compares false. -/
def geZeroOpt (v : Option ℚ) : Bool :=
  match v with
  | none => false
  | some x => decide (0 ≤ x)

/-- `a <= b` rowwise; a NaN on either side compares false. -/
def leOpt (a b : Option ℚ) : Bool :=
  match a, b with
  | some x, some y => decide (x ≤ y)
  | _, _ => false

/-- `process_producao(prod_raw)` (pipeline_etl.py lines 314-374) from step
3 on: drop unparsable timestamps, then the three business filters
`pecas_produzidas >= 0`, `pecas_refugadas >= 0`,
`pecas_refugadas <= pecas_produzidas`.  Step 5 only adds derived columns
(turno, data, taxa_refugo) and drops or changes no row. -/
def process_producao (rows : List ProdRawRow) : List ProdRawRow :=
  let r1 := rows.filter (fun r => r.timestamp.isSome)
  let r2 := r1.filter (fun r => geZeroOpt r.pecas)
  let r3 := r2.filter (fun r => geZeroOpt r.refug)
  r3.filter (fun r => leOpt r.refug r.pecas)

-- =============================================
-- Alert engine (alerts.py): `AlertConfig`, `ControlLimitsCalculator`,
-- `AlertDetector.detect_out_of_control`
-- =============================================

/-- `AlertConfig.WINDOW_SIZE` (alerts.py line 96). -/
def WINDOW_SIZE : ℕ := 30

/-- `AlertConfig.STD_FACTOR_WARNING` (alerts.py line 97); this is the
`std_factor` that `detect_out_of_control` passes to the limit calculator. -/
def STD_FACTOR_WARNING : ℚ := 2

/-- `AlertConfig.PERSISTENCE_CRITICAL` (alerts.py line 102): how many of
the most recent samples are checked. -/
def PERSISTENCE_CRITICAL : ℕ := 5

/-- `AlertConfig.COOLDOWN_MINUTES` (alerts.py line 109). -/
def COOLDOWN_MINUTES : ℚ := 15

/-- Arithmetic mean of a list (`Series.mean()`); 0 on the empty list. -/
def listMean (l : List ℚ) : ℚ := l.sum / l.length

/-- Sample variance with one delta degree of freedom (`Series.std()`
squared).  `none` plays the role of the NaN that pandas returns on fewer
than 2 samples. -/
def sampleVar (l : List ℚ) : Option ℚ :=
  if l.length < 2 then none
  else some ((l.map (fun x => (x - listMean l) ^ 2)).sum / ((l.length : ℚ) - 1))

/-- The last `n` elements of a list (`Series.tail(n)` /
`rolling(window).iloc[-1]` windows). -/
def lastN (l : List α) (n : ℕ) : List α := l.drop (l.length - n)

/-- `ControlLimits` (alerts.py lines 46-55).  The source stores
`ucl = mean + k·σ` and `lcl = mean − k·σ`; since σ is a square root we
store the pair (mean, σ²) together with the factor k, and the comparison
against ucl/lcl is phrased without the root in `outOfLimits` below.
`varOpt = none` plays the NaN that arises from too-short windows. -/
structure ControlLimits where
  mean : ℚ
  varOpt : Option ℚ
  k : ℚ
deriving DecidableEq, Repr

/-- `ControlLimitsCalculator.calculate_limits(series, window, std_factor)`
(alerts.py lines 118-149): mean and sample std of the last
`min(window, len)` samples; if that std is NaN or 0, fall back to the
whole-series std (0.0 for an empty series). -/
def calculate_limits (series : List ℚ) (window : ℕ) (std_factor : ℚ) :
    ControlLimits :=
  let w := min window series.length
  let recent := lastN series w
  let mean := listMean recent
  let fallback : Option ℚ :=
    if series.isEmpty then some 0 else sampleVar series
  let v : Option ℚ :=
    match sampleVar recent with
    | none => fallback
    | some x => if x = 0 then fallback else some x
  ⟨mean, v, std_factor⟩

/-- `value > ucl or value < lcl` for `ucl/lcl = mean ± k·σ`:
`v > mean + k·σ  ↔  v − mean > 0 ∧ (v − mean)² > k²·σ²` for `k·σ ≥ 0`,
and symmetrically for the lower limit.  When σ is NaN (`none`) every
comparison is false, as in pandas. -/
def outOfLimits (lim : ControlLimits) (v : ℚ) : Bool :=
  match lim.varOpt with
  | none => false
  | some s2 =>
      decide (0 < v - lim.mean ∧ lim.k ^ 2 * s2 < (v - lim.mean) ^ 2) ||
      decide (0 < lim.mean - v ∧ lim.k ^ 2 * s2 < (lim.mean - v) ^ 2)

/-- One telemetry sample of the metric being analysed. -/
structure TelePoint where
  timestamp : ℚ
  value : ℚ
deriving DecidableEq, Repr

/-- One emitted alert (the random `alert_id` and the constant
severity/type fields CRITICAL / OUT_OF_CONTROL are not modelled). -/
structure Alert where
  timestamp : ℚ
  maquina_id : String
  metric : String
  value : ℚ
deriving DecidableEq, Repr

/-- `self.last_alert_time`: an association list from alert key to the
wall-clock instant of the last emitted alert. -/
def lookupKey (st : List (String × ℚ)) (k : String) : Option ℚ :=
  (st.find? (fun p => p.1 = k)).map (·.2)

/-- `AlertDetector._is_in_cooldown` (alerts.py lines 190-196): the key
fired less than `COOLDOWN_MINUTES` of wall-clock time ago. -/
def isInCooldown (now : ℚ) (st : List (String × ℚ)) (key : String) : Bool :=
  match lookupKey st key with
  | none => false
  | some t => decide (now - t < COOLDOWN_MINUTES * 60)

/-- The `for idx, row in recent_df.iterrows()` loop of
`detect_out_of_control` (alerts.py lines 223-246): each out-of-limits
sample emits an alert unless its key is in cooldown; emitting stores the
wall-clock `now` under the key. -/
def detectLoop (limits : ControlLimits) (maquina metric : String) (now : ℚ) :
    List TelePoint → List (String × ℚ) → List Alert × List (String × ℚ)
  | [], st => ([], st)
  | p :: ps, st =>
      if outOfLimits limits p.value then
        if isInCooldown now st (maquina ++ "_" ++ metric ++ "_OUT_OF_CONTROL") then
          detectLoop limits maquina metric now ps st
        else
          let rest := detectLoop limits maquina metric now ps
            ((maquina ++ "_" ++ metric ++ "_OUT_OF_CONTROL", now) :: st)
          (⟨p.timestamp, maquina, metric, p.value⟩ :: rest.1, rest.2)
      else detectLoop limits maquina metric now ps st

/-- `AlertDetector.detect_out_of_control(df, metric, maquina_id)`
(alerts.py lines 198-248) under the default `AlertConfig`: limits over the
whole series with the 2σ warning factor, then the last
`PERSISTENCE_CRITICAL` samples are checked.  `now` is the wall clock
(`datetime.now()`, constant during one call); `st` is the detector's
cooldown map, returned updated. -/
def detect_out_of_control (df : List TelePoint) (metric maquina_id : String)
    (now : ℚ) (st : List (String × ℚ)) : List Alert × List (String × ℚ) :=
  if df.isEmpty then ([], st)
  else
    let limits := calculate_limits (df.map (·.value)) WINDOW_SIZE STD_FACTOR_WARNING
    detectLoop limits maquina_id metric now (lastN df PERSISTENCE_CRITICAL) st

-- =============================================
-- Concrete scenario frames used by the claims
-- =============================================

/-- The scenario frame of C5: shifts A/B/C, productions [1000,1000,1000],
scraps [50,100,20]. -/
def refugoScenario : List TurnoRow :=
  [⟨"A", some 1000, some 50⟩, ⟨"B", some 1000, some 100⟩, ⟨"C", some 1000, some 20⟩]

/-- The scenario frame of C1: failures of 30/60/90 minutes spread over a
10-hour (36000 second = 600 minute) span. -/
def mttrScenario : List EventRow :=
  [⟨some 0, some 30⟩, ⟨some 18000, some 60⟩, ⟨some 36000, some 90⟩]

/-- A frame with a single low-severity (code 1) event. -/
def paretoLowSevFrame : ParetoFrame := ⟨true, [⟨"Parada Curta", 1, some 5⟩]⟩

/-- A one-row frame for the C2 witness: 600 pieces at the epoch instant
(day 0, a Thursday). -/
def periodoWitnessFrame : List ProdRow := [⟨0, 600⟩]

/-- A telemetry frame for the C6 witness: one fully in-range row, one row
with out-of-range pressure, one row with an unparsable timestamp. -/
def teleWitnessFrame : TeleFrame :=
  ⟨true, true, true,
   [⟨some 0, some 10, some 12, some 50⟩,
    ⟨some 60, some 30, some 12, some 50⟩,
    ⟨none, some 10, some 12, some 50⟩]⟩

/-- A production frame for the C7 witness: one valid row, one row whose
scrap exceeds its production. -/
def prodWitnessRows : List ProdRawRow :=
  [⟨some 0, some 10, some 5⟩, ⟨some 60, some 10, some 20⟩]

/-- A telemetry series for the C3 witness: one sample per minute, 18 zeros
followed by two spikes of 10, one minute apart.  The whole-series mean is
1 and the 2σ² bound is 720/19 < 81 = (10−1)², so both spikes are
out-of-control points while the zeros are not. -/
def alertWitnessDf : List TelePoint :=
  [⟨0, 0⟩, ⟨60, 0⟩, ⟨120, 0⟩, ⟨180, 0⟩, ⟨240, 0⟩, ⟨300, 0⟩, ⟨360, 0⟩,
   ⟨420, 0⟩, ⟨480, 0⟩, ⟨540, 0⟩, ⟨600, 0⟩, ⟨660, 0⟩, ⟨720, 0⟩, ⟨780, 0⟩,
   ⟨840, 0⟩, ⟨900, 0⟩, ⟨960, 0⟩, ⟨1020, 0⟩, ⟨1080, 10⟩, ⟨1140, 10⟩]

end EcoData

open EcoData

/-- **C8.** For every production frame, `compute_energy_cost` returns a total
energy cost equal to the sum of `consumo_kwh` times the fixed rate 0.75 per
kWh, and a per-piece cost equal to that total divided by the total pieces
produced; the per-piece cost is 0 when total pieces is 0, and both results
are 0 when the frame is empty or has no `consumo_kwh` column. -/
theorem compute_energy_cost_spec (df : EnergyFrame) (p c : ℚ) :
    (df.rows = [] ∨ df.hasConsumo = false →
      compute_energy_cost df p c = (0, 0)) ∧
    (df.rows ≠ [] → df.hasConsumo = true →
      (compute_energy_cost df p c).2 =
        optSum (df.rows.map (·.consumo)) * CUSTO_KWH ∧
      (optSum (df.rows.map (·.pecas)) = 0 →
        (compute_energy_cost df p c).1 = 0) ∧
      (0 < optSum (df.rows.map (·.pecas)) →
        (compute_energy_cost df p c).1 =
          (compute_energy_cost df p c).2 / optSum (df.rows.map (·.pecas)))) := by
  constructor
  · rintro (h | h) <;> simp [compute_energy_cost, h]
  · intro hne hc
    have hemp : df.rows.isEmpty = false := by
      cases h : df.rows with
      | nil => exact absurd h hne
      | cons a l => simp [h]
    refine ⟨?_, ?_, ?_⟩
    · simp [compute_energy_cost, hemp, hc]
    · intro h0
      simp [compute_energy_cost, hemp, hc, h0]
    · intro hpos
      simp [compute_energy_cost, hemp, hc, hpos]

/-- Witness for C8 at a concrete two-row frame. -/
theorem compute_energy_cost_spec_witness :
    ({ hasConsumo := true,
       rows := [⟨some 100, some 10⟩, ⟨some 300, some 30⟩] } : EnergyFrame).rows ≠ [] ∧
    (compute_energy_cost
      { hasConsumo := true,
        rows := [⟨some 100, some 10⟩, ⟨some 300, some 30⟩] } 5 2).2 =
      optSum (([⟨some 100, some 10⟩, ⟨some 300, some 30⟩] :
        List EnergyRow).map (·.consumo)) * CUSTO_KWH := by
  refine ⟨by decide, ?_⟩
  exact ((compute_energy_cost_spec
    { hasConsumo := true,
      rows := [⟨some 100, some 10⟩, ⟨some 300, some 30⟩] } 5 2).2
    (by decide) (by decide)).1

/-- **C10.** `compute_energy_cost` returns the same result for every pair of
values of its `preco_venda` and `custo_por_tijolo` arguments: the output does
not depend on the sales-price and per-brick-cost parameters. -/
theorem compute_energy_cost_ignores_prices (df : EnergyFrame)
    (p1 c1 p2 c2 : ℚ) :
    compute_energy_cost df p1 c1 = compute_energy_cost df p2 c2 := rfl

/-- **C5.** `compute_refugo_by_turno` returns one row per shift with
`pct_refugo = (scrap sum / production sum) * 100` rounded to 1 decimal
(0 when the shift's production sum is 0), sorted descending by `pct_refugo`;
the A/B/C scenario yields pct values [10.0, 5.0, 2.0] ordered B, A, C. -/
theorem compute_refugo_by_turno_spec (l : List TurnoRow) :
    List.Sorted pctGE (compute_refugo_by_turno l) ∧
    (compute_refugo_by_turno l).length = (turnoKeys l).length ∧
    (∀ t ∈ turnoKeys l, ∃ row ∈ compute_refugo_by_turno l,
      row.turno = t ∧ row.pecas = turnoPecas l t ∧ row.refug = turnoRefug l t ∧
      row.pct_refugo =
        (if turnoPecas l t = 0 then 0
         else round1 (turnoRefug l t / turnoPecas l t * 100))) ∧
    compute_refugo_by_turno refugoScenario =
      [⟨"B", 1000, 100, 10⟩, ⟨"A", 1000, 50, 5⟩, ⟨"C", 1000, 20, 2⟩] := by
  have hk : turnoKeys refugoScenario = ["A", "B", "C"] := by decide
  refine ⟨?_, ?_, ?_, ?_⟩
  case refine_2 =>
    by_cases hl : l.isEmpty
    · have : l = [] := by
        cases l with
        | nil => rfl
        | cons a as => simp at hl
      subst this
      rfl
    · simp only [compute_refugo_by_turno, hl, Bool.false_eq_true, if_false]
      rw [(List.perm_insertionSort pctGE _).length_eq, List.length_map]
  case refine_4 =>
    have hA : mkRefugoRow refugoScenario "A" = ⟨"A", 1000, 50, 5⟩ := by
      simp [mkRefugoRow, turnoPecas, turnoRefug, TurnoRow.p, TurnoRow.r,
        refugoScenario]
      norm_num [round1, roundHalfEven]
    have hB : mkRefugoRow refugoScenario "B" = ⟨"B", 1000, 100, 10⟩ := by
      simp [mkRefugoRow, turnoPecas, turnoRefug, TurnoRow.p, TurnoRow.r,
        refugoScenario]
      norm_num [round1, roundHalfEven]
    have hC : mkRefugoRow refugoScenario "C" = ⟨"C", 1000, 20, 2⟩ := by
      simp [mkRefugoRow, turnoPecas, turnoRefug, TurnoRow.p, TurnoRow.r,
        refugoScenario]
      norm_num [round1, roundHalfEven]
    show List.insertionSort pctGE
      ((turnoKeys refugoScenario).map (mkRefugoRow refugoScenario)) = _
    rw [hk]
    simp only [List.map_cons, List.map_nil, hA, hB, hC]
    norm_num [List.insertionSort, List.orderedInsert, pctGE]
  · by_cases hl : l.isEmpty
    · simp [compute_refugo_by_turno, hl]
    · simpa [compute_refugo_by_turno, hl] using
        List.sorted_insertionSort pctGE ((turnoKeys l).map (mkRefugoRow l))
  · intro t ht
    have hl : l.isEmpty = false := by
      cases l with
      | nil => simp [turnoKeys] at ht
      | cons a as => rfl
    refine ⟨mkRefugoRow l t, ?_, rfl, rfl, rfl, rfl⟩
    rw [compute_refugo_by_turno, hl]
    simp only [Bool.false_eq_true, if_false]
    exact (List.perm_insertionSort pctGE _).mem_iff.2
      (List.mem_map_of_mem (mkRefugoRow l) ht)

/-- Witness for C5: the shift "A" of the scenario frame has an output row
with the specified percentage. -/
theorem compute_refugo_by_turno_spec_witness :
    "A" ∈ turnoKeys refugoScenario ∧
    ∃ row ∈ compute_refugo_by_turno refugoScenario,
      row.turno = "A" ∧ row.pecas = turnoPecas refugoScenario "A" ∧
      row.refug = turnoRefug refugoScenario "A" ∧
      row.pct_refugo =
        (if turnoPecas refugoScenario "A" = 0 then 0
         else round1 (turnoRefug refugoScenario "A" /
           turnoPecas refugoScenario "A" * 100)) :=
  ⟨by decide, (compute_refugo_by_turno_spec refugoScenario).2.2.1 "A" (by decide)⟩

/-- Counterexample to C1 as stated: a frame whose timestamp span is
degenerate (a single instant) but which has one failure event of 30 minutes
does NOT return (0, 0) — it returns (30, 0): MTTR is still computed. -/
theorem calculate_mttr_mtbf_claim_counterexample :
    listMin? (evtTimes [⟨some 0, some 30⟩]) =
      listMax? (evtTimes [⟨some 0, some 30⟩]) ∧
    calculate_mttr_mtbf [⟨some 0, some 30⟩] = (30, 0) ∧
    calculate_mttr_mtbf [⟨some 0, some 30⟩] ≠ (0, 0) := by
  refine ⟨rfl, ?_, ?_⟩ <;>
    norm_num [calculate_mttr_mtbf, falhas, EventRow.dur, evtTimes,
      listMin?, listMax?, List.filterMap_cons, List.filterMap_nil,
      Prod.ext_iff]

/-- **C1 (amended).** `calculate_mttr_mtbf` returns (0,0) exactly when there
are no failure events (rows with `duracao_min > 0`); when failures exist,
MTTR is always total downtime / number of failures, and only MTBF falls back
to 0 on a missing or degenerate timestamp span; otherwise MTBF is
`max 0 (span minutes − downtime) / failures`.  The [30,60,90]-over-10-hours
scenario gives (60, 140). -/
theorem calculate_mttr_mtbf_amended (l : List EventRow) :
    (falhas l = [] → calculate_mttr_mtbf l = (0, 0)) ∧
    (falhas l ≠ [] →
      (calculate_mttr_mtbf l).1 =
        ((falhas l).map (·.dur)).sum / (falhas l).length ∧
      (listMin? (evtTimes l) = none → (calculate_mttr_mtbf l).2 = 0) ∧
      (∀ m, listMin? (evtTimes l) = some m → listMax? (evtTimes l) = some m →
        (calculate_mttr_mtbf l).2 = 0) ∧
      (∀ mn mx, listMin? (evtTimes l) = some mn →
        listMax? (evtTimes l) = some mx → mn ≠ mx →
        (calculate_mttr_mtbf l).2 =
          max 0 ((mx - mn) / 60 - ((falhas l).map (·.dur)).sum) /
            (falhas l).length)) ∧
    calculate_mttr_mtbf mttrScenario = (60, 140) := by
  refine ⟨?_, ?_, ?_⟩
  case refine_3 =>
    norm_num [calculate_mttr_mtbf, mttrScenario, falhas, EventRow.dur,
      evtTimes, listMin?, listMax?, List.filterMap_cons, List.filterMap_nil,
      min_def, max_def, Prod.ext_iff]
  · intro h
    by_cases hl : l.isEmpty
    · simp [calculate_mttr_mtbf, hl]
    · have hft : (falhas l).isEmpty = true := by simp [h]
      simp [calculate_mttr_mtbf, hl, hft]
  · intro h
    have hl : l.isEmpty = false := by
      cases l with
      | nil => exact absurd rfl h
      | cons a as => rfl
    have hf : (falhas l).isEmpty = false := by
      cases hfl : falhas l with
      | nil => exact absurd hfl h
      | cons a as => simp [hfl]
    refine ⟨?_, ?_, ?_, ?_⟩
    · simp only [calculate_mttr_mtbf, hl, hf, Bool.false_eq_true, if_false]
      cases hmn : listMin? (evtTimes l) <;> cases hmx : listMax? (evtTimes l)
      · rfl
      · rfl
      · rfl
      · split <;> first | rfl | (split <;> rfl)
    · intro hmn
      have hmx : listMax? (evtTimes l) = none := by
        cases he : evtTimes l with
        | nil => rfl
        | cons a as => rw [he] at hmn; exact absurd hmn (by simp [listMin?])
      simp only [calculate_mttr_mtbf, hl, hf, Bool.false_eq_true, if_false,
        hmn, hmx]
    · intro m hmn hmx
      simp only [calculate_mttr_mtbf, hl, hf, Bool.false_eq_true, if_false,
        hmn, hmx, if_pos rfl, if_true]
    · intro mn mx hmn hmx hne
      simp only [calculate_mttr_mtbf, hl, hf, Bool.false_eq_true, if_false,
        hmn, hmx, if_neg hne]

/-- Witness for C1 (amended) at the scenario frame. -/
theorem calculate_mttr_mtbf_amended_witness :
    falhas mttrScenario ≠ [] ∧
    (calculate_mttr_mtbf mttrScenario).1 =
      ((falhas mttrScenario).map (·.dur)).sum / (falhas mttrScenario).length := by
  have hfe : falhas mttrScenario = mttrScenario := by
    norm_num [falhas, EventRow.dur, mttrScenario]
  have hne : falhas mttrScenario ≠ [] := by
    rw [hfe]; exact List.cons_ne_nil _ _
  exact ⟨hne, ((calculate_mttr_mtbf_amended mttrScenario).2.1 hne).1⟩

/-- Counterexample to C4 as stated: `pareto_paradas` applies no severity
filter — a frame whose only event has severity code 1 (below medium) still
produces a group for that event, where the claimed filter would leave
nothing. -/
theorem pareto_paradas_claim_counterexample :
    (∀ r ∈ paretoLowSevFrame.rows, r.sev < 2) ∧
    pareto_paradas paretoLowSevFrame = [⟨"Parada Curta", 1, 5⟩] := by
  refine ⟨by decide, ?_⟩
  have hk : eventoKeys paretoLowSevFrame.rows = ["Parada Curta"] := by decide
  have hr : mkParetoRow paretoLowSevFrame "Parada Curta" =
      ⟨"Parada Curta", 1, 5⟩ := by
    simp [mkParetoRow, paretoLowSevFrame, ParetoFrame.dur, optSum]
  show List.insertionSort countGE
    ((eventoKeys paretoLowSevFrame.rows).map (mkParetoRow paretoLowSevFrame)) = _
  rw [hk]
  simp only [List.map_cons, List.map_nil, hr]
  rfl

/-- **C4 (amended).** `pareto_paradas` groups all events — whatever their
severity — by event type, aggregates the occurrence count and the summed
duration minutes per type, and returns the groups sorted descending by
occurrence count (the severity ≥ medium filter lives in `aggregate_events`,
not in `pareto_paradas`). -/
theorem pareto_paradas_amended (f : ParetoFrame) :
    List.Sorted countGE (pareto_paradas f) ∧
    (pareto_paradas f).length = (eventoKeys f.rows).length ∧
    (∀ e ∈ eventoKeys f.rows, ∃ g ∈ pareto_paradas f,
      g.evento = e ∧ g.count = (f.rows.filter (·.evento = e)).length ∧
      g.tempo_total_min = optSum ((f.rows.filter (·.evento = e)).map f.dur)) ∧
    (∀ g ∈ pareto_paradas f, g.evento ∈ eventoKeys f.rows) := by
  refine ⟨List.sorted_insertionSort countGE _, ?_, ?_, ?_⟩
  · rw [pareto_paradas, (List.perm_insertionSort countGE _).length_eq,
      List.length_map]
  · intro e he
    refine ⟨mkParetoRow f e, ?_, rfl, rfl, rfl⟩
    exact (List.perm_insertionSort countGE _).mem_iff.2
      (List.mem_map_of_mem (mkParetoRow f) he)
  · intro g hg
    have hg2 := (List.perm_insertionSort countGE _).mem_iff.1 hg
    rcases List.mem_map.1 hg2 with ⟨e, he, rfl⟩
    exact he

-- Helper lemmas for the period selector (C2)

/-- `dateOf` is monotone. -/
theorem dateOf_mono {a b : ℚ} (h : a ≤ b) : dateOf a ≤ dateOf b :=
  Int.floor_le_floor (by linarith)

/-- `dateOf` distributes over binary max. -/
theorem dateOf_max (a b : ℚ) : dateOf (max a b) = max (dateOf a) (dateOf b) := by
  rcases le_total a b with h | h
  · rw [max_eq_right h, max_eq_right (dateOf_mono h)]
  · rw [max_eq_left h, max_eq_left (dateOf_mono h)]

/-- The date of the maximal timestamp is the maximal date. -/
theorem tsMaxD_dates (l : List ProdRow) (hne : l ≠ []) :
    listMaxZ? (datesOf l) = some (dateOf (tsMaxD l)) := by
  cases l with
  | nil => exact absurd rfl hne
  | cons r rs =>
    clear hne
    simp only [datesOf, List.map_cons, listMaxZ?, tsMaxD, Option.some.injEq]
    induction rs generalizing r with
    | nil => rfl
    | cons x xs ih =>
      simp only [List.map_cons, List.foldl_cons]
      rw [← dateOf_max]
      exact ih ⟨max r.timestamp x.timestamp, r.pecas⟩

/-- Python `int()` truncation does not change comparison against 500. -/
theorem intTrunc_lt_500 (q : ℚ) : intTrunc q < 500 ↔ q < 500 := by
  unfold intTrunc
  split
  · rename_i hq
    constructor
    · intro _; linarith
    · intro _
      have hc : (⌈q⌉ : ℤ) ≤ 0 := Int.ceil_le.2 (by exact_mod_cast hq.le)
      omega
  · exact Int.floor_lt.trans (by norm_num)

/-- If the bounded backward search returns a day, that day has positive
production, lies within the attempted range, and is the first (latest)
such day. -/
theorem buscaGo_eq_some (df : List ProdRow) :
    ∀ (n : ℕ) (start d : ℤ), buscaGo df start n = some d →
      dayPos df d = true ∧ start - n < d ∧ d ≤ start ∧
      ∀ e, d < e → e ≤ start → dayPos df e = false := by
  intro n
  induction n with
  | zero => intro start d h; simp [buscaGo] at h
  | succ k ih =>
    intro start d h
    simp only [buscaGo] at h
    by_cases hd : dayPos df start = true
    · rw [if_pos hd] at h
      injection h with h
      subst h
      refine ⟨hd, by push_cast; omega, le_refl _, ?_⟩
      intro e he1 he2
      exact absurd (lt_of_lt_of_le he1 he2) (lt_irrefl _)
    · rw [if_neg hd] at h
      obtain ⟨h1, h2, h3, h4⟩ := ih (start - 1) d h
      refine ⟨h1, by push_cast at h2 ⊢; omega, by omega, ?_⟩
      intro e he1 he2
      rcases lt_or_eq_of_le he2 with hlt | heq
      · exact h4 e he1 (by omega)
      · subst heq
        simpa using hd

/-- If the bounded backward search fails, no day in the attempted range has
positive production. -/
theorem buscaGo_eq_none (df : List ProdRow) :
    ∀ (n : ℕ) (start : ℤ), buscaGo df start n = none →
      ∀ e, start - n < e → e ≤ start → dayPos df e = false := by
  intro n
  induction n with
  | zero => intro start _ e he1 he2; push_cast at he1; omega
  | succ k ih =>
    intro start h e he1 he2
    simp only [buscaGo] at h
    by_cases hd : dayPos df start = true
    · rw [if_pos hd] at h; exact absurd h (by simp)
    · rw [if_neg hd] at h
      rcases lt_or_eq_of_le he2 with hlt | heq
      · exact ih (start - 1) h e (by push_cast at he1 ⊢; omega) (by omega)
      · subst heq
        simpa using hd

/-- Witness for C4 (amended) at a concrete two-type frame. -/
theorem pareto_paradas_amended_witness :
    "Quebra" ∈ eventoKeys (⟨true, [⟨"Quebra", 3, some 40⟩, ⟨"Ajuste", 1, some 5⟩,
      ⟨"Quebra", 2, some 20⟩]⟩ : ParetoFrame).rows ∧
    ∃ g ∈ pareto_paradas ⟨true, [⟨"Quebra", 3, some 40⟩, ⟨"Ajuste", 1, some 5⟩,
      ⟨"Quebra", 2, some 20⟩]⟩,
      g.evento = "Quebra" ∧
      g.count = ((⟨true, [⟨"Quebra", 3, some 40⟩, ⟨"Ajuste", 1, some 5⟩,
        ⟨"Quebra", 2, some 20⟩]⟩ : ParetoFrame).rows.filter
          (·.evento = "Quebra")).length ∧
      g.tempo_total_min = optSum (((⟨true, [⟨"Quebra", 3, some 40⟩,
        ⟨"Ajuste", 1, some 5⟩, ⟨"Quebra", 2, some 20⟩]⟩ : ParetoFrame).rows.filter
          (·.evento = "Quebra")).map
            (⟨true, [⟨"Quebra", 3, some 40⟩, ⟨"Ajuste", 1, some 5⟩,
              ⟨"Quebra", 2, some 20⟩]⟩ : ParetoFrame).dur) :=
  ⟨by decide, (pareto_paradas_amended _).2.2.1 "Quebra" (by decide)⟩

/-- **C2.** In mode "auto", on a non-empty production frame:
with no positive-production row the full min-max range is returned as full
history; otherwise, with D the latest calendar day with positive production
(the date of the maximal positive-row timestamp, shown equal to the maximal
date), if D's total pieces (truncation notwithstanding) is below 500 or D
is a Sunday, the search steps backward day-by-day, bounded to 7 attempts,
and the first earlier day with positive production is returned as a
full-day window; if none is found within 7 attempts the full range is
returned as fallback; otherwise day D itself is the window. -/
theorem selecionar_periodo_auto_spec (now : ℚ) (df : List ProdRow)
    (hne : df ≠ []) :
    (posRows df = [] →
      selecionar_periodo_inteligente now df .auto =
        (tsMinP df, tsMaxP df, Desc.historicoTotal)) ∧
    (posRows df ≠ [] →
      listMaxZ? (datesOf (posRows df)) = some (ultimoDiaOf df) ∧
      (¬(sumPecas (diaRows (posRows df) (ultimoDiaOf df)) < 500 ∨
          weekdayOf (ultimoDiaOf df) = 6) →
        selecionar_periodo_inteligente now df .auto =
          (some (midnight (ultimoDiaOf df)),
           some (midnight (ultimoDiaOf df) + 86400 - 1),
           Desc.hoje (ultimoDiaOf df))) ∧
      ((sumPecas (diaRows (posRows df) (ultimoDiaOf df)) < 500 ∨
          weekdayOf (ultimoDiaOf df) = 6) →
        (∀ d, buscaDiaAnterior df (ultimoDiaOf df) = some d →
          dayPos df d = true ∧ ultimoDiaOf df - 8 < d ∧
          d ≤ ultimoDiaOf df - 1 ∧
          (∀ e, d < e → e ≤ ultimoDiaOf df - 1 → dayPos df e = false) ∧
          selecionar_periodo_inteligente now df .auto =
            (some (midnight d), some (midnight d + 86400 - 1),
             Desc.fechamentoAnterior d)) ∧
        (buscaDiaAnterior df (ultimoDiaOf df) = none →
          (∀ e, ultimoDiaOf df - 8 < e → e ≤ ultimoDiaOf df - 1 →
            dayPos df e = false) ∧
          selecionar_periodo_inteligente now df .auto =
            (tsMinP df, tsMaxP df, Desc.historicoFallback)))) := by
  have hie : df.isEmpty = false := by
    cases df with
    | nil => exact absurd rfl hne
    | cons a as => rfl
  have hcond : (intTrunc (sumPecas (diaRows (posRows df) (ultimoDiaOf df))) < 500 ∨
      weekdayOf (ultimoDiaOf df) = 6) ↔
      (sumPecas (diaRows (posRows df) (ultimoDiaOf df)) < 500 ∨
        weekdayOf (ultimoDiaOf df) = 6) :=
    or_congr (intTrunc_lt_500 _) Iff.rfl
  constructor
  · intro hp
    have hpe : (posRows df).isEmpty = true := by simp [hp]
    simp [selecionar_periodo_inteligente, hie, hpe]
  · intro hp
    have hpe : (posRows df).isEmpty = false := by
      cases h : posRows df with
      | nil => exact absurd h hp
      | cons a as => rfl
    refine ⟨tsMaxD_dates (posRows df) hp, ?_, ?_⟩
    · intro hnc
      simp only [selecionar_periodo_inteligente, hie, hpe, Bool.false_eq_true,
        if_false]
      rw [if_neg (fun h => hnc (hcond.mp h))]
    · intro hc
      constructor
      · intro d hd
        obtain ⟨h1, h2, h3, h4⟩ := buscaGo_eq_some df 7 (ultimoDiaOf df - 1) d hd
        refine ⟨h1, by push_cast at h2 ⊢; omega, h3, h4, ?_⟩
        simp only [selecionar_periodo_inteligente, hie, hpe, Bool.false_eq_true,
          if_false]
        rw [if_pos (hcond.mpr hc)]
        simp only [hd]
      · intro hd
        have hnone := buscaGo_eq_none df 7 (ultimoDiaOf df - 1) hd
        refine ⟨fun e he1 he2 => hnone e (by push_cast at he1 ⊢; omega) he2, ?_⟩
        simp only [selecionar_periodo_inteligente, hie, hpe, Bool.false_eq_true,
          if_false]
        rw [if_pos (hcond.mpr hc)]
        simp only [hd]

/-- Witness for C2: a single-row frame with 600 pieces on a Thursday takes
the "use day D itself" branch. -/
theorem selecionar_periodo_auto_spec_witness :
    posRows periodoWitnessFrame ≠ [] ∧
    selecionar_periodo_inteligente 0 periodoWitnessFrame .auto =
      (some (midnight (ultimoDiaOf periodoWitnessFrame)),
       some (midnight (ultimoDiaOf periodoWitnessFrame) + 86400 - 1),
       Desc.hoje (ultimoDiaOf periodoWitnessFrame)) := by
  have hne : periodoWitnessFrame ≠ [] := List.cons_ne_nil _ _
  have hfe : posRows periodoWitnessFrame = periodoWitnessFrame := by
    norm_num [posRows, periodoWitnessFrame]
  have hp : posRows periodoWitnessFrame ≠ [] := by
    rw [hfe]; exact List.cons_ne_nil _ _
  have hD : ultimoDiaOf periodoWitnessFrame = 0 := by
    rw [ultimoDiaOf, hfe]
    norm_num [tsMaxD, periodoWitnessFrame, dateOf]
  have hsum : sumPecas (diaRows (posRows periodoWitnessFrame)
      (ultimoDiaOf periodoWitnessFrame)) = 600 := by
    rw [hD, hfe]
    norm_num [sumPecas, diaRows, periodoWitnessFrame, dateOf]
  have hnc : ¬(sumPecas (diaRows (posRows periodoWitnessFrame)
      (ultimoDiaOf periodoWitnessFrame)) < 500 ∨
      weekdayOf (ultimoDiaOf periodoWitnessFrame) = 6) := by
    rw [hsum, hD]
    norm_num [weekdayOf]
  exact ⟨hp, ((selecionar_periodo_auto_spec 0 periodoWitnessFrame hne).2 hp).2.1 hnc⟩

/-- **C9.** Auto-mode period selection is a deterministic function of the
frame alone: the clock (`pd.Timestamp.now()`, here the explicit `now`
argument, the only impure input of the function) does not influence the
returned `(start, end, label)` triple. -/
theorem selecionar_periodo_auto_deterministic (df : List ProdRow)
    (now1 now2 : ℚ) :
    selecionar_periodo_inteligente now1 df .auto =
      selecionar_periodo_inteligente now2 df .auto := rfl

-- Helper lemmas for the alert cooldown (C3)

/-- Once the key maps to the current wall-clock instant, every further
trigger of this call is suppressed: the loop emits nothing. -/
theorem detectLoop_suppressed (limits : ControlLimits) (maquina metric : String)
    (now : ℚ) :
    ∀ (ps : List TelePoint) (st : List (String × ℚ)),
      lookupKey st (maquina ++ "_" ++ metric ++ "_OUT_OF_CONTROL") = some now →
      (detectLoop limits maquina metric now ps st).1 = [] := by
  intro ps
  induction ps with
  | nil => intro st _; rfl
  | cons p ps ih =>
    intro st hst
    rw [detectLoop]
    by_cases hout : outOfLimits limits p.value = true
    · rw [if_pos hout]
      have hcool : isInCooldown now st
          (maquina ++ "_" ++ metric ++ "_OUT_OF_CONTROL") = true := by
        rw [isInCooldown, hst]
        norm_num [COOLDOWN_MINUTES]
      rw [if_pos hcool]
      exact ih st hst
    · rw [if_neg hout]
      exact ih st hst

/-- Starting from a cooldown map in which the key is absent, the loop
emits exactly one alert when some sample is out of limits, and none
otherwise. -/
theorem detectLoop_fresh (limits : ControlLimits) (maquina metric : String)
    (now : ℚ) :
    ∀ (ps : List TelePoint) (st : List (String × ℚ)),
      lookupKey st (maquina ++ "_" ++ metric ++ "_OUT_OF_CONTROL") = none →
      (detectLoop limits maquina metric now ps st).1.length =
        (if ps.any (fun p => outOfLimits limits p.value) then 1 else 0) := by
  intro ps
  induction ps with
  | nil => intro st _; rfl
  | cons p ps ih =>
    intro st hst
    rw [detectLoop]
    by_cases hout : outOfLimits limits p.value = true
    · rw [if_pos hout]
      have hcool : isInCooldown now st
          (maquina ++ "_" ++ metric ++ "_OUT_OF_CONTROL") = false := by
        rw [isInCooldown, hst]
      rw [if_neg (by simp [hcool])]
      have htail := detectLoop_suppressed limits maquina metric now ps
        ((maquina ++ "_" ++ metric ++ "_OUT_OF_CONTROL", now) :: st)
        (by simp [lookupKey, List.find?])
      simp [htail, List.any_cons, hout]
    · rw [if_neg hout]
      rw [ih st hst]
      simp [List.any_cons, hout]

/-- **C3.** For every telemetry frame containing two out-of-control points
(both among the checked `PERSISTENCE_CRITICAL` most recent samples, both
beyond the computed control limits) whose timestamps lie within 15 minutes
of each other, a single call of `detect_out_of_control` on a fresh
detector (empty cooldown map) emits exactly one OUT_OF_CONTROL alert for
the (equipment, metric) key: the second point is suppressed by the
`COOLDOWN_MINUTES` cooldown. -/
theorem detect_out_of_control_cooldown
    (df : List TelePoint) (metric maquina : String) (now : ℚ) (i j : ℕ)
    (hi : i < (lastN df PERSISTENCE_CRITICAL).length)
    (hj : j < (lastN df PERSISTENCE_CRITICAL).length)
    (hij : i ≠ j)
    (houti : outOfLimits
      (calculate_limits (df.map (·.value)) WINDOW_SIZE STD_FACTOR_WARNING)
      ((lastN df PERSISTENCE_CRITICAL).getD i ⟨0, 0⟩).value = true)
    (houtj : outOfLimits
      (calculate_limits (df.map (·.value)) WINDOW_SIZE STD_FACTOR_WARNING)
      ((lastN df PERSISTENCE_CRITICAL).getD j ⟨0, 0⟩).value = true)
    (hts : |((lastN df PERSISTENCE_CRITICAL).getD i ⟨0, 0⟩).timestamp -
      ((lastN df PERSISTENCE_CRITICAL).getD j ⟨0, 0⟩).timestamp| ≤ 15 * 60) :
    ((detect_out_of_control df metric maquina now []).1).length = 1 := by
  have hne : df.isEmpty = false := by
    cases df with
    | nil => simp [lastN] at hi
    | cons a as => rfl
  simp only [detect_out_of_control, hne, Bool.false_eq_true, if_false]
  rw [detectLoop_fresh _ _ _ _ _ [] rfl]
  have hmem : (lastN df PERSISTENCE_CRITICAL).getD i ⟨0, 0⟩ ∈
      lastN df PERSISTENCE_CRITICAL := by
    rw [List.getD_eq_getElem _ _ hi]
    exact List.getElem_mem hi
  rw [if_pos (List.any_eq_true.2 ⟨_, hmem, houti⟩)]

/-- Witness for C3: on `alertWitnessDf` (spikes at samples 18 and 19, one
minute apart) a fresh detector emits exactly one alert. -/
theorem detect_out_of_control_cooldown_witness :
    3 < (lastN alertWitnessDf PERSISTENCE_CRITICAL).length ∧
    4 < (lastN alertWitnessDf PERSISTENCE_CRITICAL).length ∧
    outOfLimits (calculate_limits (alertWitnessDf.map (·.value))
      WINDOW_SIZE STD_FACTOR_WARNING)
      ((lastN alertWitnessDf PERSISTENCE_CRITICAL).getD 3 ⟨0, 0⟩).value = true ∧
    outOfLimits (calculate_limits (alertWitnessDf.map (·.value))
      WINDOW_SIZE STD_FACTOR_WARNING)
      ((lastN alertWitnessDf PERSISTENCE_CRITICAL).getD 4 ⟨0, 0⟩).value = true ∧
    ((detect_out_of_control alertWitnessDf "pressao_mpa" "M1" 0 []).1).length = 1 := by
  have h3 : 3 < (lastN alertWitnessDf PERSISTENCE_CRITICAL).length := by
    decide
  have h4 : 4 < (lastN alertWitnessDf PERSISTENCE_CRITICAL).length := by
    decide
  have hout3 : outOfLimits (calculate_limits (alertWitnessDf.map (·.value))
      WINDOW_SIZE STD_FACTOR_WARNING)
      ((lastN alertWitnessDf PERSISTENCE_CRITICAL).getD 3 ⟨0, 0⟩).value = true := by
    norm_num [outOfLimits, calculate_limits, alertWitnessDf, lastN, listMean,
      sampleVar, WINDOW_SIZE, STD_FACTOR_WARNING, PERSISTENCE_CRITICAL]
  have hout4 : outOfLimits (calculate_limits (alertWitnessDf.map (·.value))
      WINDOW_SIZE STD_FACTOR_WARNING)
      ((lastN alertWitnessDf PERSISTENCE_CRITICAL).getD 4 ⟨0, 0⟩).value = true := by
    norm_num [outOfLimits, calculate_limits, alertWitnessDf, lastN, listMean,
      sampleVar, WINDOW_SIZE, STD_FACTOR_WARNING, PERSISTENCE_CRITICAL]
  have hts : |((lastN alertWitnessDf PERSISTENCE_CRITICAL).getD 3 ⟨0, 0⟩).timestamp -
      ((lastN alertWitnessDf PERSISTENCE_CRITICAL).getD 4 ⟨0, 0⟩).timestamp| ≤
        15 * 60 := by
    norm_num [alertWitnessDf, lastN, PERSISTENCE_CRITICAL]
  exact ⟨h3, h4, hout3, hout4,
    detect_out_of_control_cooldown alertWitnessDf "pressao_mpa" "M1" 0 3 4
      h3 h4 (by decide) hout3 hout4 hts⟩

-- Helper lemmas for the pipeline range invariants (C6, C7)

/-- A convex combination of two values of an interval stays inside it. -/
theorem convex_bound {a b lo hi f : ℚ} (ha : a ≤ lo) (hb : lo ≤ b)
    (ha2 : a ≤ hi) (hb2 : hi ≤ b) (hf0 : 0 ≤ f) (hf1 : f ≤ 1) :
    a ≤ lo + f * (hi - lo) ∧ lo + f * (hi - lo) ≤ b := by
  constructor
  · nlinarith [mul_nonneg (by linarith : (0:ℚ) ≤ 1 - f) (by linarith : (0:ℚ) ≤ lo - a),
      mul_nonneg hf0 (by linarith : (0:ℚ) ≤ hi - a)]
  · nlinarith [mul_nonneg (by linarith : (0:ℚ) ≤ 1 - f) (by linarith : (0:ℚ) ≤ b - lo),
      mul_nonneg hf0 (by linarith : (0:ℚ) ≤ b - hi)]

/-- The interpolated value lies between the interval bounds of the sample. -/
theorem interpAt_mem {s : List ℚ} {a b : ℚ}
    (hmem : ∀ x ∈ s, a ≤ x ∧ x ≤ b) {h : ℚ}
    (h0 : 0 ≤ h) (hn : h ≤ (s.length : ℚ) - 1) :
    a ≤ interpAt s h ∧ interpAt s h ≤ b := by
  have hn1 : 1 ≤ s.length := by
    by_contra hc
    push_neg at hc
    have hz : s.length = 0 := by omega
    rw [hz] at hn
    norm_num at hn
    linarith
  have hfl0 : 0 ≤ ⌊h⌋ := Int.floor_nonneg.2 h0
  have hfln : ⌊h⌋ ≤ (s.length : ℤ) - 1 := by
    have h2 : ⌊h⌋ ≤ ⌊((s.length : ℚ) - 1)⌋ := Int.floor_le_floor hn
    have h3 : ((s.length : ℚ) - 1) = (((s.length : ℤ) - 1 : ℤ) : ℚ) := by
      push_cast
      ring
    rw [h3, Int.floor_intCast] at h2
    exact h2
  have hilt : (⌊h⌋).toNat < s.length := by omega
  have hlo : a ≤ s.getD (⌊h⌋).toNat 0 ∧ s.getD (⌊h⌋).toNat 0 ≤ b := by
    rw [List.getD_eq_getElem s 0 hilt]
    exact hmem _ (List.getElem_mem hilt)
  have hhi : a ≤ s.getD ((⌊h⌋).toNat + 1) (s.getD (⌊h⌋).toNat 0) ∧
      s.getD ((⌊h⌋).toNat + 1) (s.getD (⌊h⌋).toNat 0) ≤ b := by
    by_cases hlt : (⌊h⌋).toNat + 1 < s.length
    · rw [List.getD_eq_getElem s _ hlt]
      exact hmem _ (List.getElem_mem hlt)
    · rw [List.getD_eq_default s _ (by omega)]
      exact hlo
  have hf0 : 0 ≤ h - ⌊h⌋ := by
    have := Int.floor_le h
    linarith
  have hf1 : h - ⌊h⌋ ≤ 1 := by
    have := Int.lt_floor_add_one h
    linarith
  exact convex_bound hlo.1 hlo.2 hhi.1 hhi.2 hf0 hf1

/-- A pandas quantile of a sample lies between the sample's bounds. -/
theorem quantile_mem {l : List ℚ} {a b q v : ℚ}
    (hl : ∀ x ∈ l, a ≤ x ∧ x ≤ b) (hq0 : 0 ≤ q) (hq1 : q ≤ 1)
    (hv : quantile l q = some v) : a ≤ v ∧ v ≤ b := by
  unfold quantile quantileSorted at hv
  by_cases hse : (List.insertionSort (· ≤ ·) l).isEmpty
  · rw [if_pos hse] at hv
    exact absurd hv (by simp)
  · rw [if_neg hse] at hv
    injection hv with hv
    subst hv
    have hmem : ∀ x ∈ List.insertionSort (· ≤ ·) l, a ≤ x ∧ x ≤ b := fun x hx =>
      hl x ((List.perm_insertionSort (· ≤ ·) l).subset hx)
    have hn1 : 1 ≤ (List.insertionSort (· ≤ ·) l).length := by
      cases hsc : List.insertionSort (· ≤ ·) l with
      | nil => rw [hsc] at hse; simp at hse
      | cons y ys => exact Nat.succ_le_succ (Nat.zero_le _)
    have hq : (1 : ℚ) ≤ ((List.insertionSort (· ≤ ·) l).length : ℚ) := by
      exact_mod_cast hn1
    apply interpAt_mem hmem
    · exact mul_nonneg hq0 (by linarith)
    · calc q * (((List.insertionSort (· ≤ ·) l).length : ℚ) - 1)
          ≤ 1 * (((List.insertionSort (· ≤ ·) l).length : ℚ) - 1) :=
            mul_le_mul_of_nonneg_right hq1 (by linarith)
        _ = ((List.insertionSort (· ≤ ·) l).length : ℚ) - 1 := one_mul _

/-- Clipping by thresholds taken inside the interval keeps the value
inside the interval. -/
theorem clipOpt_mem {a b v : ℚ} (hva : a ≤ v) (hvb : v ≤ b)
    {lo hi : Option ℚ}
    (hlo : ∀ x, lo = some x → a ≤ x ∧ x ≤ b)
    (hhi : ∀ x, hi = some x → a ≤ x ∧ x ≤ b) :
    a ≤ clipOpt lo hi v ∧ clipOpt lo hi v ≤ b := by
  unfold clipOpt
  cases lo with
  | none =>
    cases hi with
    | none => exact ⟨hva, hvb⟩
    | some y =>
      obtain ⟨hy1, hy2⟩ := hhi y rfl
      exact ⟨le_min hva hy1, le_trans (min_le_left _ _) hvb⟩
  | some x =>
    obtain ⟨hx1, hx2⟩ := hlo x rfl
    cases hi with
    | none => exact ⟨le_trans hx1 (le_max_right _ _), max_le hvb hx2⟩
    | some y =>
      obtain ⟨hy1, hy2⟩ := hhi y rfl
      exact ⟨le_min (le_trans hx1 (le_max_right _ _)) hy1,
        le_trans (min_le_right _ _) hy2⟩

/-- Unpacking a successful range check. -/
theorem inRangeOpt_true {v : Option ℚ} {lo hi : ℚ}
    (h : inRangeOpt v lo hi = true) : ∃ x, v = some x ∧ lo ≤ x ∧ x ≤ hi := by
  cases v with
  | none => exact absurd h (by simp [inRangeOpt])
  | some x =>
    simp only [inRangeOpt, Bool.and_eq_true, decide_eq_true_eq] at h
    exact ⟨x, rfl, h.1, h.2⟩

/-- A row that passes `mask_valid` satisfies the per-column ranges. -/
theorem maskValid_rowOk {f : TeleFrame} {r : TeleRow}
    (h : maskValid f r = true) : RowOk f r := by
  simp only [maskValid, Bool.and_eq_true, Bool.or_eq_true] at h
  obtain ⟨⟨hp, hu⟩, ht⟩ := h
  refine ⟨fun hc => ?_, fun hc => ?_, fun hc => ?_⟩
  · rcases hp with hp | hp
    · rw [hc] at hp
      exact absurd hp (by simp)
    · exact inRangeOpt_true hp
  · rcases hu with hu | hu
    · rw [hc] at hu
      exact absurd hu (by simp)
    · exact inRangeOpt_true hu
  · rcases ht with ht | ht
    · rw [hc] at ht
      exact absurd ht (by simp)
    · exact inRangeOpt_true ht

/-- The values of the pressure column of rows satisfying `RowOk` are in
range (used to bound the winsorization thresholds). -/
theorem colValues_pressao_mem {f : TeleFrame} {rows : List TeleRow}
    (hp : f.hasPressao = true) (h : ∀ r ∈ rows, RowOk f r) :
    ∀ x ∈ colValues rows (·.pressao), PRESSAO_MIN ≤ x ∧ x ≤ PRESSAO_MAX := by
  intro x hx
  obtain ⟨r, hr, hrx⟩ := List.mem_filterMap.1 hx
  obtain ⟨y, hy, hy1, hy2⟩ := (h r hr).1 hp
  have hxy : y = x := by
    rw [hy] at hrx
    exact Option.some.inj hrx
  subst hxy
  exact ⟨hy1, hy2⟩

/-- Same for the humidity column. -/
theorem colValues_umidade_mem {f : TeleFrame} {rows : List TeleRow}
    (hp : f.hasUmidade = true) (h : ∀ r ∈ rows, RowOk f r) :
    ∀ x ∈ colValues rows (·.umidade), UMIDADE_MIN ≤ x ∧ x ≤ UMIDADE_MAX := by
  intro x hx
  obtain ⟨r, hr, hrx⟩ := List.mem_filterMap.1 hx
  obtain ⟨y, hy, hy1, hy2⟩ := (h r hr).2.1 hp
  have hxy : y = x := by
    rw [hy] at hrx
    exact Option.some.inj hrx
  subst hxy
  exact ⟨hy1, hy2⟩

/-- Same for the temperature column. -/
theorem colValues_temp_mem {f : TeleFrame} {rows : List TeleRow}
    (hp : f.hasTemp = true) (h : ∀ r ∈ rows, RowOk f r) :
    ∀ x ∈ colValues rows (·.temp), TEMP_MIN ≤ x ∧ x ≤ TEMP_MAX := by
  intro x hx
  obtain ⟨r, hr, hrx⟩ := List.mem_filterMap.1 hx
  obtain ⟨y, hy, hy1, hy2⟩ := (h r hr).2.2 hp
  have hxy : y = x := by
    rw [hy] at hrx
    exact Option.some.inj hrx
  subst hxy
  exact ⟨hy1, hy2⟩

/-- Winsorizing the pressure column preserves the per-row ranges. -/
theorem winsorizePressao_ok (f : TeleFrame) (rows : List TeleRow)
    (h : ∀ r ∈ rows, RowOk f r) :
    ∀ r ∈ winsorizePressao rows, RowOk f r := by
  intro r hr
  simp only [winsorizePressao] at hr
  split at hr
  · obtain ⟨r0, hr0, rfl⟩ := List.mem_map.1 hr
    have h0 := h r0 hr0
    refine ⟨fun hp => ?_, h0.2.1, h0.2.2⟩
    obtain ⟨x, hx, hx1, hx2⟩ := h0.1 hp
    have hvals := colValues_pressao_mem hp h
    refine ⟨clipOpt (quantile (colValues rows (·.pressao)) (1 / 100))
      (quantile (colValues rows (·.pressao)) (99 / 100)) x, ?_, ?_⟩
    · show r0.pressao.map _ = _
      rw [hx]
      rfl
    · exact clipOpt_mem hx1 hx2
        (fun z hz => quantile_mem hvals (by norm_num) (by norm_num) hz)
        (fun z hz => quantile_mem hvals (by norm_num) (by norm_num) hz)
  · exact h r hr

/-- Winsorizing the humidity column preserves the per-row ranges. -/
theorem winsorizeUmidade_ok (f : TeleFrame) (rows : List TeleRow)
    (h : ∀ r ∈ rows, RowOk f r) :
    ∀ r ∈ winsorizeUmidade rows, RowOk f r := by
  intro r hr
  simp only [winsorizeUmidade] at hr
  split at hr
  · obtain ⟨r0, hr0, rfl⟩ := List.mem_map.1 hr
    have h0 := h r0 hr0
    refine ⟨h0.1, fun hp => ?_, h0.2.2⟩
    obtain ⟨x, hx, hx1, hx2⟩ := h0.2.1 hp
    have hvals := colValues_umidade_mem hp h
    refine ⟨clipOpt (quantile (colValues rows (·.umidade)) (1 / 100))
      (quantile (colValues rows (·.umidade)) (99 / 100)) x, ?_, ?_⟩
    · show r0.umidade.map _ = _
      rw [hx]
      rfl
    · exact clipOpt_mem hx1 hx2
        (fun z hz => quantile_mem hvals (by norm_num) (by norm_num) hz)
        (fun z hz => quantile_mem hvals (by norm_num) (by norm_num) hz)
  · exact h r hr

/-- Winsorizing the temperature column preserves the per-row ranges. -/
theorem winsorizeTemp_ok (f : TeleFrame) (rows : List TeleRow)
    (h : ∀ r ∈ rows, RowOk f r) :
    ∀ r ∈ winsorizeTemp rows, RowOk f r := by
  intro r hr
  simp only [winsorizeTemp] at hr
  split at hr
  · obtain ⟨r0, hr0, rfl⟩ := List.mem_map.1 hr
    have h0 := h r0 hr0
    refine ⟨h0.1, h0.2.1, fun hp => ?_⟩
    obtain ⟨x, hx, hx1, hx2⟩ := h0.2.2 hp
    have hvals := colValues_temp_mem hp h
    refine ⟨clipOpt (quantile (colValues rows (·.temp)) (1 / 100))
      (quantile (colValues rows (·.temp)) (99 / 100)) x, ?_, ?_⟩
    · show r0.temp.map _ = _
      rw [hx]
      rfl
    · exact clipOpt_mem hx1 hx2
        (fun z hz => quantile_mem hvals (by norm_num) (by norm_num) hz)
        (fun z hz => quantile_mem hvals (by norm_num) (by norm_num) hz)
  · exact h r hr

/-- The three winsorization passes preserve the per-row ranges. -/
theorem winsorizeAll_ok (f : TeleFrame) (rows : List TeleRow)
    (h : ∀ r ∈ rows, RowOk f r) :
    ∀ r ∈ winsorizeAll f rows, RowOk f r := by
  simp only [winsorizeAll]
  split
  · apply winsorizeTemp_ok
    split
    · apply winsorizeUmidade_ok
      split
      · exact winsorizePressao_ok f rows h
      · exact h
    · split
      · exact winsorizePressao_ok f rows h
      · exact h
  · split
    · apply winsorizeUmidade_ok
      split
      · exact winsorizePressao_ok f rows h
      · exact h
    · split
      · exact winsorizePressao_ok f rows h
      · exact h

/-- Winsorizing the pressure column does not change the number of rows. -/
theorem winsorizePressao_length (rows : List TeleRow) :
    (winsorizePressao rows).length = rows.length := by
  simp only [winsorizePressao]
  split
  · simp
  · rfl

/-- Winsorizing the humidity column does not change the number of rows. -/
theorem winsorizeUmidade_length (rows : List TeleRow) :
    (winsorizeUmidade rows).length = rows.length := by
  simp only [winsorizeUmidade]
  split
  · simp
  · rfl

/-- Winsorizing the temperature column does not change the number of rows. -/
theorem winsorizeTemp_length (rows : List TeleRow) :
    (winsorizeTemp rows).length = rows.length := by
  simp only [winsorizeTemp]
  split
  · simp
  · rfl

/-- Winsorization does not change the number of rows. -/
theorem winsorizeAll_length (f : TeleFrame) (rows : List TeleRow) :
    (winsorizeAll f rows).length = rows.length := by
  simp only [winsorizeAll]
  split <;> split <;> split <;>
    simp only [winsorizeTemp_length, winsorizeUmidade_length,
      winsorizePressao_length]

/-- `countP` of a predicate and of its negation partition the length. -/
theorem countP_not_add (l : List α) (p : α → Bool) :
    l.countP (fun a => !(p a)) + l.countP p = l.length := by
  induction l with
  | nil => rfl
  | cons a as ih =>
    by_cases h : p a = true <;> simp [List.countP_cons, h] <;> omega

/-- **C6.** Every row retained by `process_telemetria` satisfies the
configured physical ranges for the columns present in the frame
(`pressao_mpa ∈ [8,18]`, `umidade_pct ∈ [8,18]`, `temp_matriz_c ∈ [40,80]`,
per `RowOk`) — a row is excluded whenever any configured column present is
out of range (or NaN) — and the recorded `removed_invalid` count equals the
number of timestamp-valid rows removed by the range mask. -/
theorem process_telemetria_spec (f : TeleFrame) :
    (∀ r ∈ (process_telemetria f).1, RowOk f r) ∧
    (process_telemetria f).2 =
      (f.rows.filter (fun r => r.timestamp.isSome)).length -
        (process_telemetria f).1.length := by
  constructor
  · intro r hr
    have hsil : ∀ x ∈ silverStage f, RowOk f x := fun x hx =>
      maskValid_rowOk (List.of_mem_filter hx)
    exact winsorizeAll_ok f (silverStage f) hsil r hr
  · simp only [process_telemetria]
    rw [winsorizeAll_length]
    have h1 : (silverStage f).length =
        (f.rows.filter (fun r => r.timestamp.isSome)).countP (maskValid f) := by
      rw [silverStage]
      exact (List.countP_eq_length_filter _ _).symm
    rw [h1]
    have h2 := countP_not_add (f.rows.filter (fun r => r.timestamp.isSome))
      (maskValid f)
    omega

/-- Witness for C6: the in-range row of `teleWitnessFrame` is retained and
satisfies the ranges; the out-of-range and unparsable rows are gone. -/
theorem process_telemetria_spec_witness :
    (⟨some 0, some 10, some 12, some 50⟩ : TeleRow) ∈
      (process_telemetria teleWitnessFrame).1 ∧
    RowOk teleWitnessFrame ⟨some 0, some 10, some 12, some 50⟩ := by
  have hpt : process_telemetria teleWitnessFrame =
      ([⟨some 0, some 10, some 12, some 50⟩], 1) := by
    norm_num [process_telemetria, winsorizeAll, winsorizePressao,
      winsorizeUmidade, winsorizeTemp, silverStage, maskValid, inRangeOpt,
      colValues, iqrOutlierCount, quantile, quantileSorted, interpAt,
      List.insertionSort, List.orderedInsert, clipOpt, IQR_MULTIPLIER,
      PRESSAO_MIN, PRESSAO_MAX, UMIDADE_MIN, UMIDADE_MAX, TEMP_MIN, TEMP_MAX,
      teleWitnessFrame, List.countP_cons]
  have hmem : (⟨some 0, some 10, some 12, some 50⟩ : TeleRow) ∈
      (process_telemetria teleWitnessFrame).1 := by
    rw [hpt]
    exact List.mem_singleton.2 rfl
  exact ⟨hmem, (process_telemetria_spec teleWitnessFrame).1 _ hmem⟩

/-- **C7.** Every row of the frame returned by `process_producao`
satisfies `0 ≤ pecas_refugadas ≤ pecas_produzidas` (both counts present
and non-negative, scrap never exceeding production). -/
theorem process_producao_spec (rows : List ProdRawRow) :
    ∀ r ∈ process_producao rows, ∃ p q, r.pecas = some p ∧ r.refug = some q ∧
      0 ≤ p ∧ 0 ≤ q ∧ q ≤ p := by
  intro r hr
  simp only [process_producao] at hr
  have h4 := List.of_mem_filter hr
  have hr3 := List.mem_of_mem_filter hr
  have h3 := List.of_mem_filter hr3
  have hr2 := List.mem_of_mem_filter hr3
  have h2 := List.of_mem_filter hr2
  cases hp : r.pecas with
  | none => rw [hp] at h2; exact absurd h2 (by simp [geZeroOpt])
  | some p =>
    cases hq : r.refug with
    | none => rw [hq] at h3; exact absurd h3 (by simp [geZeroOpt])
    | some q =>
      rw [hp] at h2 h4
      rw [hq] at h3 h4
      simp only [geZeroOpt, decide_eq_true_eq] at h2 h3
      simp only [leOpt, decide_eq_true_eq] at h4
      exact ⟨p, q, rfl, rfl, h2, h3, h4⟩

/-- Witness for C7: the valid row of `prodWitnessRows` is retained with
`0 ≤ 5 ≤ 10`; the scrap-exceeds-production row is dropped. -/
theorem process_producao_spec_witness :
    (⟨some 0, some 10, some 5⟩ : ProdRawRow) ∈ process_producao prodWitnessRows ∧
    ∃ p q, (⟨some 0, some 10, some 5⟩ : ProdRawRow).pecas = some p ∧
      (⟨some 0, some 10, some 5⟩ : ProdRawRow).refug = some q ∧
      0 ≤ p ∧ 0 ≤ q ∧ q ≤ p := by
  have hpp : process_producao prodWitnessRows = [⟨some 0, some 10, some 5⟩] := by
    norm_num [process_producao, prodWitnessRows, geZeroOpt, leOpt]
  have hmem : (⟨some 0, some 10, some 5⟩ : ProdRawRow) ∈
      process_producao prodWitnessRows := by
    rw [hpp]
    exact List.mem_singleton.2 rfl
  exact ⟨hmem, process_producao_spec prodWitnessRows _ hmem⟩
